import Mathlib

/-!
Shallow embedding of the openrelik-worker-dfindexeddb worker.

Source files embedded:
  * `src/definitions.py` — static tables (record types, filename regexes,
    output-format descriptors).
  * `src/indexeddb.py`   — the `command` Celery task wrapping `dfindexeddb`.
  * `src/leveldb.py`     — the `command` Celery task wrapping `dfleveldb`.

Modelling conventions:
  * Python dicts iterated with `.items()` are embedded as association lists in
    the source's insertion order (CPython preserves insertion order).
  * `re.search` against the concrete regexes of `definitions.py` is embedded as
    executable predicates on the character list of the display name, one per
    regex, with the regex's semantics spelled out in each predicate's comment.
  * Fallible effects are explicit: a `TaskError` value models an uncaught Python
    exception propagating out of the task, and `Except` models that propagation.
    `subprocess.Popen` may raise (missing binary, permission denied); whether a
    given argument vector launches is an environment parameter `Env.launchOk`.
    `os.mkdir`, `shutil.copy` and `create_output_file` are modelled as always
    succeeding; `self.send_event` and `print` are effect-free notifications.
  * The staged temporary directory's lifecycle is tracked by an explicit
    boolean in the IndexedDB task's result: `true` iff a created staging
    directory still exists when control leaves the task.
  * The subprocess poll loop (`while process.poll() is None: send_event; sleep`)
    is embedded over discrete time: the child runs for `D` time units, polls
    happen at times `0, I, 2*I, ...` with `I = INTERVAL_SECONDS`, and the loop
    emits one event at each poll time at which the process is still alive.
-/

/-- Data type label used for captured stderr artifacts
(`definitions.STDERR_FILE_DATA_TYPE`). -/
def STDERR_FILE_DATA_TYPE : String := "plain/txt"

/-- Record types allowed per LevelDB file kind
(`definitions.LEVELDB_RECORD_TYPES`), in source insertion order. -/
def LEVELDB_RECORD_TYPES : List (String × List String) :=
  [("log", ["blocks", "physical_records", "write_batches", "parsed_internal_key"]),
   ("ldb", ["blocks", "records"]),
   ("descriptor", ["blocks", "physical_records", "versionedit"])]

/-- Lookup in `LEVELDB_RECORD_TYPES` (`definitions.LEVELDB_RECORD_TYPES[k]`);
in the source the key is always one of the three kinds produced by the
filename regex table, so the default `[]` branch is never taken there. -/
def leveldbRecordTypes (k : String) : List String :=
  ((LEVELDB_RECORD_TYPES.find? (fun p => p.1 == k)).map (fun p => p.2)).getD []

/-- Model of `re.search(r"[0-9]{6}\.ldb$", name)` and its `.log` sibling:
the name ends with six ASCII digits followed by the literal extension.
Scanned from the right: the reversed character list starts with the reversed
extension, followed by six digit characters. -/
def matchesNumericExt (ext : String) (name : String) : Bool :=
  let rs := name.data.reverse
  let re := ext.data.reverse
  (rs.take re.length == re) &&
  (decide (re.length + 6 ≤ rs.length)) &&
  (((rs.drop re.length).take 6).all Char.isDigit)

/-- Model of `re.search(r"^MANIFEST-[0-9]{6}$", name)`: anchored at both ends,
so the whole name is the literal `MANIFEST-` followed by exactly six digits.
Scanned from the right: six digits, then the reversed literal and nothing
before it. -/
def manifestMatch (name : String) : Bool :=
  let rs := name.data.reverse
  (rs.take 6).all Char.isDigit && (rs.drop 6 == "MANIFEST-".data.reverse)

/-- Model of `re.search(definitions.FIREFOX_FILE_REGEX, name)` with regex
`\.sqlite$`: the name ends with the literal `.sqlite`. Scanned from the
right: the reversed character list starts with the reversed literal. -/
def firefoxMatch (name : String) : Bool :=
  name.data.reverse.take ".sqlite".data.reverse.length == ".sqlite".data.reverse

/-- Model of `re.search(definitions.SAFARI_FILE_REGEX, name)` with regex
`^IndexedDB.sqlite3$`: anchored at both ends, `.` matching any single
character except a newline. -/
def safariMatch (name : String) : Bool :=
  let cs := name.data
  (cs.take 9 == "IndexedDB".data) &&
  (match cs.drop 9 with
   | c :: rest => c != '\n' && rest == "sqlite3".data
   | [] => false)

/-- Chromium file-kind patterns (`definitions.CHROMIUM_FILE_REGEX`), as an
association list from subcommand to matcher, in source insertion order. -/
def CHROMIUM_FILE_REGEX : List (String × (String → Bool)) :=
  [("ldb", matchesNumericExt ".ldb"), ("log", matchesNumericExt ".log")]

/-- LevelDB file-kind patterns (`definitions.LEVELDB_FILE_REGEX`), in source
insertion order: descriptor, ldb, log. -/
def LEVELDB_FILE_REGEX : List (String × (String → Bool)) :=
  [("descriptor", manifestMatch),
   ("ldb", matchesNumericExt ".ldb"),
   ("log", matchesNumericExt ".log")]

/-- One entry of `definitions.OUTPUT_TYPES_EXTENSIONS`. -/
structure OutputTypeConfig where
  extension : String
  mime : String
deriving DecidableEq, Repr

/-- The output-format descriptor table (`definitions.OUTPUT_TYPES_EXTENSIONS`). -/
def OUTPUT_TYPES_EXTENSIONS : List (String × OutputTypeConfig) :=
  [("json", ⟨".json", "application/json"⟩),
   ("jsonl", ⟨".jsonl", "application/jsonl"⟩),
   ("repr", ⟨".txt", "text/plain"⟩)]

/-- Dictionary lookup `definitions.OUTPUT_TYPES_EXTENSIONS[fmt]`; `none`
models the `KeyError` the subscript raises for an unknown format. -/
def lookupOutput (fmt : String) : Option OutputTypeConfig :=
  (OUTPUT_TYPES_EXTENSIONS.find? (fun p => p.1 == fmt)).map (fun p => p.2)

/-- Model of Python `str.lower()` on the configuration strings: lower-case
each character. (Defined over the character list so that it evaluates by
kernel reduction.) -/
def pyLower (s : String) : String :=
  ⟨s.data.map Char.toLower⟩

/-- One element of the task's `input_files` list: the fields of the input-file
dictionary that the tasks read. -/
structure InputFile where
  display_name : String
  path : String
  id : Nat
deriving DecidableEq, Repr

/-- The fields `create_output_file` receives for one artifact; `to_dict` is
modelled as the identity on this record. -/
structure OutputFile where
  display_name : String
  extension : String
  data_type : String
  original_path : String
  source_file_id : Nat
deriving DecidableEq, Repr

/-- The result record built by `create_task_result`. -/
structure TaskResult where
  output_files : List OutputFile
  workflow_id : Option String
  command : String
deriving DecidableEq, Repr

/-- An uncaught Python exception escaping the task body. -/
inductive TaskError
  /-- `AttributeError`: `.lower()` called on the list default
  `task_config.get("output_format", [])`. -/
  | attributeError
  /-- `KeyError` from `OUTPUT_TYPES_EXTENSIONS[fmt]` for an unknown format. -/
  | keyError (fmt : String)
  /-- `subprocess.Popen` raised (missing binary, permission denied) for the
  given argument vector. -/
  | launchError (argv : List String)
  /-- `RuntimeError("No supported files")`. -/
  | noSupportedFiles
deriving DecidableEq, Repr

/-- The task configuration dictionary: the three keys the tasks read, each
possibly absent. `browser_type` is read by the IndexedDB task, `record_type`
by the LevelDB task. -/
structure TaskConfig where
  browser_type : Option String := none
  output_format : Option String := none
  record_type : Option String := none
deriving DecidableEq, Repr

/-- The ambient execution environment: whether `subprocess.Popen` succeeds for
a given argument vector (`false` models a raised `FileNotFoundError` or
`PermissionError`). -/
structure Env where
  launchOk : List String → Bool

/-- Classification step of the IndexedDB task (`src/indexeddb.py`, the
`if browser_type == "chromium" ... elif ... else` cascade inside the per-file
loop): `some subcommand` if a pattern of the declared browser type matches the
display name, `none` for the `continue` (unsupported) branches. For chromium
the patterns are tried in the insertion order of `CHROMIUM_FILE_REGEX` and the
first match wins (the `for ... break / else` idiom). -/
def classifyIndexeddb (browser_type display_name : String) : Option String :=
  if browser_type == "chromium" then
    (CHROMIUM_FILE_REGEX.find? (fun p => p.2 display_name)).map (fun p => p.1)
  else if browser_type == "firefox" && firefoxMatch display_name then
    some "db"
  else if browser_type == "safari" && safariMatch display_name then
    some "db"
  else
    none

/-- Classification step of the LevelDB task (`src/leveldb.py`, the
`for file_ext, file_regex in definitions.LEVELDB_FILE_REGEX.items()` loop with
`break`/`else: continue`): first matching kind in insertion order, `none` if
no pattern matches. -/
def classifyLeveldb (display_name : String) : Option String :=
  (LEVELDB_FILE_REGEX.find? (fun p => p.2 display_name)).map (fun p => p.1)

/-- Per-file body of the IndexedDB task loop (`src/indexeddb.py`): classify,
build the two output-file records, build `command_parts`, and launch.
Returns `(artifacts appended to output_files, argument vectors passed to a
successful Popen)`; an unsupported file contributes `([], [])` (the `continue`
branch); a failed launch is the uncaught exception `.launchError`. The staged
copy path is `temp_dir ++ "/" ++ display_name` exactly as the staging loop
wrote it. -/
def processIndexeddbFile (env : Env) (output_path temp_dir : String)
    (output_format output_extension browser_type : String) (f : InputFile) :
    Except TaskError (List OutputFile × List (List String)) :=
  let display_name := f.display_name
  let temp_file := temp_dir ++ "/" ++ display_name
  match classifyIndexeddb browser_type display_name with
  | none => .ok ([], [])
  | some subcommand =>
    let data_type := "openrelik:dfindexeddb:" ++ browser_type ++ ":" ++ output_format
    let stdout_file : OutputFile :=
      { display_name := display_name ++ "." ++ browser_type
        extension := output_extension
        data_type := data_type
        original_path := f.path
        source_file_id := f.id }
    let stderr_file : OutputFile :=
      { display_name := display_name
        extension := output_extension ++ ".error.txt"
        data_type := STDERR_FILE_DATA_TYPE
        original_path := f.path
        source_file_id := f.id }
    let command_parts :=
      ["dfindexeddb", subcommand, "-s", temp_file, "-o", output_format] ++
      (if subcommand == "db" then ["--format", browser_type] else [])
    if env.launchOk command_parts then
      .ok ([stdout_file, stderr_file], [command_parts])
    else
      .error (.launchError command_parts)

/-- The IndexedDB task's per-file loop over the staged
`input_files_temp` pairs: accumulated artifacts, accumulated launched argument
vectors, and `some e` when an exception escaped the loop (in which case the
files after the raising one are not reached). -/
def indexeddbLoop (env : Env) (output_path temp_dir : String)
    (output_format output_extension browser_type : String) :
    List InputFile → List OutputFile × List (List String) × Option TaskError
  | [] => ([], [], none)
  | f :: rest =>
    match processIndexeddbFile env output_path temp_dir
        output_format output_extension browser_type f with
    | .error e => ([], [], some e)
    | .ok (arts, cmds) =>
      let (artsR, cmdsR, err) :=
        indexeddbLoop env output_path temp_dir
          output_format output_extension browser_type rest
      (arts ++ artsR, cmds ++ cmdsR, err)

/-- The IndexedDB `command` task (`src/indexeddb.py`). Parameters: the
resolved `input_files`, `output_path`, `workflow_id`, `task_config` (with
`none` modelling a falsy configuration) and `token`, the hex of `uuid.uuid4()`
naming the staging directory. Result components: the task's outcome (the
returned result or the escaping exception), whether a created staging
directory still exists on exit, and every argument vector launched. -/
def indexeddbCommand (env : Env) (input_files : List InputFile)
    (output_path : String) (workflow_id : Option String)
    (task_config : Option TaskConfig) (token : String) :
    Except TaskError TaskResult × Bool × List (List String) :=
  match task_config with
  | none =>
    (.ok { output_files := [], workflow_id := workflow_id, command := "dfindexeddb" },
     false, [])
  | some cfg =>
    match cfg.output_format with
    | none => (.error .attributeError, false, [])
    | some fmtRaw =>
      let output_format := pyLower fmtRaw
      match lookupOutput output_format with
      | none => (.error (.keyError output_format), false, [])
      | some output_config =>
        let output_extension := output_config.extension
        let browser_type := cfg.browser_type.getD ""
        let temp_dir := output_path ++ "/" ++ token
        let (output_files, cmds, err) :=
          indexeddbLoop env output_path temp_dir
            output_format output_extension browser_type input_files
        match err with
        | some e => (.error e, true, cmds)
        | none =>
          if output_files.isEmpty then (.error .noSupportedFiles, false, cmds)
          else
            (.ok { output_files := output_files, workflow_id := workflow_id,
                   command := "dfindexeddb" },
             false, cmds)

/-- Per-file body of the LevelDB task loop (`src/leveldb.py`): classify by
filename kind, gate on the record type allowed for that kind (`continue` when
`record_type not in definitions.LEVELDB_RECORD_TYPES[subcommand]`), build the
two output-file records and `command_parts`, and launch. The source path is
the input file's original `path` — no staging. -/
def processLeveldbFile (env : Env) (output_path : String)
    (output_format output_extension record_type : String) (f : InputFile) :
    Except TaskError (List OutputFile × List (List String)) :=
  match classifyLeveldb f.display_name with
  | none => .ok ([], [])
  | some subcommand =>
    if (leveldbRecordTypes subcommand).contains record_type then
      let data_type := "openrelik:dfleveldb:" ++ record_type ++ ":" ++ output_format
      let stdout_file : OutputFile :=
        { display_name := f.display_name
          extension := output_extension
          data_type := data_type
          original_path := f.path
          source_file_id := f.id }
      let stderr_file : OutputFile :=
        { display_name := f.display_name
          extension := output_extension ++ ".error.txt"
          data_type := STDERR_FILE_DATA_TYPE
          original_path := f.path
          source_file_id := f.id }
      let command_parts :=
        ["dfleveldb", subcommand, "-s", f.path, "-t", record_type, "-o", output_format]
      if env.launchOk command_parts then
        .ok ([stdout_file, stderr_file], [command_parts])
      else
        .error (.launchError command_parts)
    else
      .ok ([], [])

/-- The LevelDB task's per-file loop, same accumulation discipline as
`indexeddbLoop`. -/
def leveldbLoop (env : Env) (output_path : String)
    (output_format output_extension record_type : String) :
    List InputFile → List OutputFile × List (List String) × Option TaskError
  | [] => ([], [], none)
  | f :: rest =>
    match processLeveldbFile env output_path
        output_format output_extension record_type f with
    | .error e => ([], [], some e)
    | .ok (arts, cmds) =>
      let (artsR, cmdsR, err) :=
        leveldbLoop env output_path
          output_format output_extension record_type rest
      (arts ++ artsR, cmds ++ cmdsR, err)

/-- The LevelDB `command` task (`src/leveldb.py`): outcome plus every argument
vector launched. No staging directory is created on this path. -/
def leveldbCommand (env : Env) (input_files : List InputFile)
    (output_path : String) (workflow_id : Option String)
    (task_config : Option TaskConfig) :
    Except TaskError TaskResult × List (List String) :=
  match task_config with
  | none =>
    (.ok { output_files := [], workflow_id := workflow_id, command := "dfleveldb" }, [])
  | some cfg =>
    let output_format := pyLower (cfg.output_format.getD "")
    match lookupOutput output_format with
    | none => (.error (.keyError output_format), [])
    | some output_config =>
      let output_extension := output_config.extension
      let record_type := cfg.record_type.getD ""
      let (output_files, cmds, err) :=
        leveldbLoop env output_path
          output_format output_extension record_type input_files
      match err with
      | some e => (.error e, cmds)
      | none =>
        if output_files.isEmpty then (.error .noSupportedFiles, cmds)
        else
          (.ok { output_files := output_files, workflow_id := workflow_id,
                 command := "dfleveldb" },
           cmds)

/-- Fixed poll interval of both tasks (`INTERVAL_SECONDS = 2`). -/
def INTERVAL_SECONDS : Nat := 2

/-- One `self.send_event("task-progress", data=None)` call, tagged with the
discrete time at which the emitting poll happened. -/
structure ProgressEvent where
  name : String
  data : Option String
  time : Nat
deriving DecidableEq, Repr

/-- The supervisor loop `while process.poll() is None: self.send_event(...);
time.sleep(INTERVAL_SECONDS)` over discrete time, for a child process that
exits at time `D`: at poll time `t`, if the process is still alive (`t < D`)
one payload-free event is emitted and the loop sleeps to `t + INTERVAL_SECONDS`;
otherwise the loop ends. -/
def pollLoop (D t : Nat) : List ProgressEvent :=
  if t < D then
    { name := "task-progress", data := none, time := t } :: pollLoop D (t + INTERVAL_SECONDS)
  else
    []
termination_by D - t
decreasing_by
  simp only [INTERVAL_SECONDS]
  omega

/-- All progress events the supervisor emits for a child process running for
duration `D`, polls starting at time `0`. -/
def supervise (D : Nat) : List ProgressEvent :=
  pollLoop D 0

/-!  Helper lemmas shared by several claims.  -/

/-- A name ending in six digits and `.ldb` cannot be a `MANIFEST-` name: its
last character is `b`, not a digit. -/
theorem ldbMatch_manifest_false (name : String)
    (h : matchesNumericExt ".ldb" name = true) : manifestMatch name = false := by
  simp only [matchesNumericExt, Bool.and_eq_true, beq_iff_eq, decide_eq_true_eq,
    List.all_eq_true] at h
  have h1 := h.1.1
  rw [show ((".ldb".data.reverse : List Char)) = ['b', 'd', 'l', '.'] from rfl] at h1
  rw [show ((['b', 'd', 'l', '.'] : List Char).length) = 4 from rfl] at h1
  obtain ⟨X, hX⟩ : ∃ X, name.data.reverse = ['b', 'd', 'l', '.'] ++ X :=
    ⟨_, by rw [← h1]; exact (List.take_append_drop 4 name.data.reverse).symm⟩
  simp only [manifestMatch, hX]
  simp [List.take_append_eq_append_take]

/-- A name ending in six digits and `.log` cannot be a `MANIFEST-` name: its
last character is `g`, not a digit. -/
theorem logMatch_manifest_false (name : String)
    (h : matchesNumericExt ".log" name = true) : manifestMatch name = false := by
  simp only [matchesNumericExt, Bool.and_eq_true, beq_iff_eq, decide_eq_true_eq,
    List.all_eq_true] at h
  have h1 := h.1.1
  rw [show ((".log".data.reverse : List Char)) = ['g', 'o', 'l', '.'] from rfl] at h1
  rw [show ((['g', 'o', 'l', '.'] : List Char).length) = 4 from rfl] at h1
  obtain ⟨X, hX⟩ : ∃ X, name.data.reverse = ['g', 'o', 'l', '.'] ++ X :=
    ⟨_, by rw [← h1]; exact (List.take_append_drop 4 name.data.reverse).symm⟩
  simp only [manifestMatch, hX]
  simp [List.take_append_eq_append_take]

/-- A name cannot end in both `.log` and `.ldb`. -/
theorem logMatch_ldbMatch_false (name : String)
    (h : matchesNumericExt ".log" name = true) :
    matchesNumericExt ".ldb" name = false := by
  simp only [matchesNumericExt, Bool.and_eq_true, beq_iff_eq, decide_eq_true_eq,
    List.all_eq_true] at h
  have h1 := h.1.1
  rw [show ((".log".data.reverse : List Char)) = ['g', 'o', 'l', '.'] from rfl] at h1
  rw [show ((['g', 'o', 'l', '.'] : List Char).length) = 4 from rfl] at h1
  obtain ⟨X, hX⟩ : ∃ X, name.data.reverse = ['g', 'o', 'l', '.'] ++ X :=
    ⟨_, by rw [← h1]; exact (List.take_append_drop 4 name.data.reverse).symm⟩
  simp only [matchesNumericExt, hX]
  rw [show ((".ldb".data.reverse : List Char)) = ['b', 'd', 'l', '.'] from rfl]
  rw [show ((['b', 'd', 'l', '.'] : List Char).length) = 4 from rfl]
  simp [List.take_append_eq_append_take]

/-- Classification of a `MANIFEST-NNNNNN` name by the LevelDB task. -/
theorem classifyLeveldb_descriptor (name : String)
    (h : manifestMatch name = true) : classifyLeveldb name = some "descriptor" := by
  simp [classifyLeveldb, LEVELDB_FILE_REGEX, List.find?, h]

/-- Classification of a `NNNNNN.ldb` name by the LevelDB task. -/
theorem classifyLeveldb_ldb (name : String)
    (h : matchesNumericExt ".ldb" name = true) : classifyLeveldb name = some "ldb" := by
  simp [classifyLeveldb, LEVELDB_FILE_REGEX, List.find?, h,
    ldbMatch_manifest_false name h]

/-- Classification of a `NNNNNN.log` name by the LevelDB task. -/
theorem classifyLeveldb_log (name : String)
    (h : matchesNumericExt ".log" name = true) : classifyLeveldb name = some "log" := by
  simp [classifyLeveldb, LEVELDB_FILE_REGEX, List.find?, h,
    logMatch_manifest_false name h, logMatch_ldbMatch_false name h]

/-- A name matching none of the LevelDB patterns is unsupported. -/
theorem classifyLeveldb_none (name : String)
    (h1 : manifestMatch name = false)
    (h2 : matchesNumericExt ".ldb" name = false)
    (h3 : matchesNumericExt ".log" name = false) :
    classifyLeveldb name = none := by
  simp [classifyLeveldb, LEVELDB_FILE_REGEX, List.find?, h1, h2, h3]

/-- Classification of a `NNNNNN.ldb` name under the chromium browser type. -/
theorem classifyIndexeddb_chromium_ldb (name : String)
    (h : matchesNumericExt ".ldb" name = true) :
    classifyIndexeddb "chromium" name = some "ldb" := by
  simp [classifyIndexeddb, CHROMIUM_FILE_REGEX, List.find?, h]

/-- Classification of a `NNNNNN.log` name under the chromium browser type. -/
theorem classifyIndexeddb_chromium_log (name : String)
    (h : matchesNumericExt ".log" name = true) :
    classifyIndexeddb "chromium" name = some "log" := by
  simp [classifyIndexeddb, CHROMIUM_FILE_REGEX, List.find?, h,
    logMatch_ldbMatch_false name h]

/-- A name matching neither chromium pattern is unsupported. -/
theorem classifyIndexeddb_chromium_none (name : String)
    (h1 : matchesNumericExt ".ldb" name = false)
    (h2 : matchesNumericExt ".log" name = false) :
    classifyIndexeddb "chromium" name = none := by
  simp [classifyIndexeddb, CHROMIUM_FILE_REGEX, List.find?, h1, h2]

/-- Classification under the firefox browser type. -/
theorem classifyIndexeddb_firefox (name : String) :
    classifyIndexeddb "firefox" name =
      (if firefoxMatch name then some "db" else none) := by
  by_cases h : firefoxMatch name <;> simp [classifyIndexeddb, h]

/-- Classification under the safari browser type. -/
theorem classifyIndexeddb_safari (name : String) :
    classifyIndexeddb "safari" name =
      (if safariMatch name then some "db" else none) := by
  by_cases h : safariMatch name <;> simp [classifyIndexeddb, h]

/-- The only exception the IndexedDB per-file body can raise is a launch
failure carrying the built argument vector. -/
theorem processIndexeddbFile_error_shape (env : Env)
    (op td fmt ext bt : String) (f : InputFile) (e : TaskError)
    (h : processIndexeddbFile env op td fmt ext bt f = .error e) :
    ∃ argv, e = .launchError argv ∧ env.launchOk argv = false := by
  simp only [processIndexeddbFile] at h
  split at h
  · simp at h
  · split at h
    all_goals
      split at h
      · simp at h
      next hLaunch =>
        simp only [Bool.not_eq_true] at hLaunch
        simp only [Except.error.injEq] at h
        exact ⟨_, h.symm, hLaunch⟩

/-- The only exception the LevelDB per-file body can raise is a launch
failure carrying the built argument vector. -/
theorem processLeveldbFile_error_shape (env : Env)
    (op fmt ext rt : String) (f : InputFile) (e : TaskError)
    (h : processLeveldbFile env op fmt ext rt f = .error e) :
    ∃ argv, e = .launchError argv ∧ env.launchOk argv = false := by
  simp only [processLeveldbFile] at h
  split at h
  · simp at h
  · split at h
    · split at h
      · simp at h
      next hLaunch =>
        simp only [Bool.not_eq_true] at hLaunch
        simp only [Except.error.injEq] at h
        exact ⟨_, h.symm, hLaunch⟩
    · simp at h

/-- Exceptions escaping the IndexedDB per-file loop are launch failures. -/
theorem indexeddbLoop_error_shape (env : Env) (op td fmt ext bt : String)
    (files : List InputFile) (e : TaskError)
    (h : (indexeddbLoop env op td fmt ext bt files).2.2 = some e) :
    ∃ argv, e = .launchError argv := by
  induction files with
  | nil => simp [indexeddbLoop] at h
  | cons f rest ih =>
    rw [indexeddbLoop] at h
    rcases hp : processIndexeddbFile env op td fmt ext bt f with e' | ⟨arts, cmds⟩
    · rw [hp] at h
      simp only [Option.some.injEq] at h
      obtain ⟨argv, he, -⟩ := processIndexeddbFile_error_shape env op td fmt ext bt f e' hp
      exact ⟨argv, h ▸ he⟩
    · rw [hp] at h
      exact ih h

/-- Exceptions escaping the LevelDB per-file loop are launch failures. -/
theorem leveldbLoop_error_shape (env : Env) (op fmt ext rt : String)
    (files : List InputFile) (e : TaskError)
    (h : (leveldbLoop env op fmt ext rt files).2.2 = some e) :
    ∃ argv, e = .launchError argv := by
  induction files with
  | nil => simp [leveldbLoop] at h
  | cons f rest ih =>
    rw [leveldbLoop] at h
    rcases hp : processLeveldbFile env op fmt ext rt f with e' | ⟨arts, cmds⟩
    · rw [hp] at h
      simp only [Option.some.injEq] at h
      obtain ⟨argv, he, -⟩ := processLeveldbFile_error_shape env op fmt ext rt f e' hp
      exact ⟨argv, h ▸ he⟩
    · rw [hp] at h
      exact ih h

/-- Number of poll-loop iterations, by induction on the remaining duration:
events are emitted at times `t, t+2, t+4, ...` strictly below `D`. -/
theorem pollLoop_length_aux (n : Nat) :
    ∀ D t, D - t ≤ n → (pollLoop D t).length = (D - t + 1) / 2 := by
  induction n with
  | zero =>
    intro D t h
    rw [pollLoop]
    split
    · omega
    · simp only [List.length_nil]
      omega
  | succ n ih =>
    intro D t h
    rw [pollLoop]
    split
    next ht =>
      have hr := ih D (t + INTERVAL_SECONDS) (by simp only [INTERVAL_SECONDS]; omega)
      simp only [List.length_cons, hr]
      simp only [INTERVAL_SECONDS]
      omega
    next ht =>
      simp only [List.length_nil]
      omega

/-- The supervisor emits `⌈D / 2⌉` heartbeats for a child of duration `D`. -/
theorem supervise_length (D : Nat) : (supervise D).length = (D + 1) / 2 := by
  have h := pollLoop_length_aux D D 0 (by omega)
  simpa [supervise] using h

/-- Every emitted event is a payload-free `task-progress` heartbeat sent
strictly before the process exit time. -/
theorem pollLoop_mem_aux (n : Nat) :
    ∀ D t e, D - t ≤ n → e ∈ pollLoop D t →
      e.time < D ∧ e.data = none ∧ e.name = "task-progress" := by
  induction n with
  | zero =>
    intro D t e h hm
    rw [pollLoop] at hm
    split at hm
    · omega
    · simp at hm
  | succ n ih =>
    intro D t e h hm
    rw [pollLoop] at hm
    split at hm
    next ht =>
      rcases List.mem_cons.mp hm with he | he
      · subst he
        exact ⟨ht, rfl, rfl⟩
      · exact ih D (t + INTERVAL_SECONDS) e (by simp only [INTERVAL_SECONDS]; omega) he
    next ht =>
      simp at hm

/-!  Claim theorems.  -/

/-- C4: for every display name and declared product family, a name matching
the family's declared filename pattern is classified to the corresponding
subcommand (multi-kind families test patterns in the fixed source order with
the first match winning), a name matching no pattern is classified
Unsupported (`none`), and an unsupported file is skipped with the batch
continuing: the loop result on `f :: rest` equals the loop result on `rest`. -/
theorem claim_c4_classification :
    (∀ name, matchesNumericExt ".ldb" name = true →
        classifyIndexeddb "chromium" name = some "ldb") ∧
    (∀ name, matchesNumericExt ".log" name = true →
        classifyIndexeddb "chromium" name = some "log") ∧
    (∀ name, matchesNumericExt ".ldb" name = false →
        matchesNumericExt ".log" name = false →
        classifyIndexeddb "chromium" name = none) ∧
    (∀ name, classifyIndexeddb "firefox" name =
        (if firefoxMatch name then some "db" else none)) ∧
    (∀ name, classifyIndexeddb "safari" name =
        (if safariMatch name then some "db" else none)) ∧
    (∀ name, manifestMatch name = true → classifyLeveldb name = some "descriptor") ∧
    (∀ name, matchesNumericExt ".ldb" name = true → classifyLeveldb name = some "ldb") ∧
    (∀ name, matchesNumericExt ".log" name = true → classifyLeveldb name = some "log") ∧
    (∀ name, manifestMatch name = false → matchesNumericExt ".ldb" name = false →
        matchesNumericExt ".log" name = false → classifyLeveldb name = none) ∧
    (∀ (env : Env) (op td fmt ext bt : String) (f : InputFile) (rest : List InputFile),
        classifyIndexeddb bt f.display_name = none →
        indexeddbLoop env op td fmt ext bt (f :: rest) =
          indexeddbLoop env op td fmt ext bt rest) ∧
    (∀ (env : Env) (op fmt ext rt : String) (f : InputFile) (rest : List InputFile),
        classifyLeveldb f.display_name = none →
        leveldbLoop env op fmt ext rt (f :: rest) =
          leveldbLoop env op fmt ext rt rest) := by
  refine ⟨classifyIndexeddb_chromium_ldb, classifyIndexeddb_chromium_log,
    classifyIndexeddb_chromium_none, classifyIndexeddb_firefox,
    classifyIndexeddb_safari, classifyLeveldb_descriptor, classifyLeveldb_ldb,
    classifyLeveldb_log, classifyLeveldb_none, ?_, ?_⟩
  · intro env op td fmt ext bt f rest hc
    rcases hrest : indexeddbLoop env op td fmt ext bt rest with ⟨a, b, c⟩
    simp [indexeddbLoop, processIndexeddbFile, hc, hrest]
  · intro env op fmt ext rt f rest hc
    rcases hrest : leveldbLoop env op fmt ext rt rest with ⟨a, b, c⟩
    simp [leveldbLoop, processLeveldbFile, hc, hrest]

/-- Witness for C4: the classification facts evaluated on the spec's concrete
display names, and skipping evaluated on a concrete unsupported file. -/
theorem claim_c4_classification_witness :
    classifyIndexeddb "chromium" "000003.ldb" = some "ldb" ∧
    classifyIndexeddb "chromium" "000003.log" = some "log" ∧
    classifyIndexeddb "chromium" "notes.txt" = none ∧
    classifyIndexeddb "firefox" "fake_firefox.sqlite" =
      (if firefoxMatch "fake_firefox.sqlite" then some "db" else none) ∧
    classifyIndexeddb "safari" "IndexedDB.sqlite3" =
      (if safariMatch "IndexedDB.sqlite3" then some "db" else none) ∧
    classifyLeveldb "MANIFEST-000123" = some "descriptor" ∧
    classifyLeveldb "000005.ldb" = some "ldb" ∧
    classifyLeveldb "000005.log" = some "log" ∧
    classifyLeveldb "notes.txt" = none ∧
    indexeddbLoop ⟨fun _ => true⟩ "/out" "/out/tok" "jsonl" ".jsonl" "firefox"
        [⟨"notes.txt", "/d/n", 7⟩] =
      indexeddbLoop ⟨fun _ => true⟩ "/out" "/out/tok" "jsonl" ".jsonl" "firefox" [] ∧
    leveldbLoop ⟨fun _ => true⟩ "/out" "json" ".json" "blocks"
        [⟨"notes.txt", "/d/n", 7⟩] =
      leveldbLoop ⟨fun _ => true⟩ "/out" "json" ".json" "blocks" [] :=
  ⟨claim_c4_classification.1 "000003.ldb" (by decide),
   claim_c4_classification.2.1 "000003.log" (by decide),
   claim_c4_classification.2.2.1 "notes.txt" (by decide) (by decide),
   claim_c4_classification.2.2.2.1 "fake_firefox.sqlite",
   claim_c4_classification.2.2.2.2.1 "IndexedDB.sqlite3",
   claim_c4_classification.2.2.2.2.2.1 "MANIFEST-000123" (by decide),
   claim_c4_classification.2.2.2.2.2.2.1 "000005.ldb" (by decide),
   claim_c4_classification.2.2.2.2.2.2.2.1 "000005.log" (by decide),
   claim_c4_classification.2.2.2.2.2.2.2.2.1 "notes.txt" (by decide) (by decide) (by decide),
   claim_c4_classification.2.2.2.2.2.2.2.2.2.1 ⟨fun _ => true⟩ "/out" "/out/tok"
     "jsonl" ".jsonl" "firefox" ⟨"notes.txt", "/d/n", 7⟩ [] (by decide),
   claim_c4_classification.2.2.2.2.2.2.2.2.2.2 ⟨fun _ => true⟩ "/out" "json"
     ".json" "blocks" ⟨"notes.txt", "/d/n", 7⟩ [] (by decide)⟩

/-- C5: for a LevelDB file whose display name matched kind `k`, a requested
record type in the declared allowed set for `k` is processed (two artifacts,
one launch), and any record type outside that set makes the file Unsupported:
the per-file body returns no artifacts and no launch, not an error. -/
theorem claim_c5_record_type_gate (env : Env) (op fmt ext rt : String)
    (f : InputFile) (k : String)
    (hk : classifyLeveldb f.display_name = some k) :
    (rt ∉ leveldbRecordTypes k →
        processLeveldbFile env op fmt ext rt f = .ok ([], [])) ∧
    (rt ∈ leveldbRecordTypes k →
        env.launchOk ["dfleveldb", k, "-s", f.path, "-t", rt, "-o", fmt] = true →
        processLeveldbFile env op fmt ext rt f =
          .ok ([⟨f.display_name, ext, "openrelik:dfleveldb:" ++ rt ++ ":" ++ fmt,
                 f.path, f.id⟩,
                ⟨f.display_name, ext ++ ".error.txt", STDERR_FILE_DATA_TYPE,
                 f.path, f.id⟩],
               [["dfleveldb", k, "-s", f.path, "-t", rt, "-o", fmt]])) := by
  constructor
  · intro h
    simp [processLeveldbFile, hk, h]
  · intro h hl
    simp [processLeveldbFile, hk, h, hl, STDERR_FILE_DATA_TYPE]

/-- Witness for C5: a `.ldb` file accepts `blocks` and rejects `versionedit`
(which is allowed only for descriptor files). -/
theorem claim_c5_record_type_gate_witness :
    processLeveldbFile ⟨fun _ => true⟩ "/out" "json" ".json" "versionedit"
      ⟨"000005.ldb", "/d/p", 1⟩ = .ok ([], []) ∧
    processLeveldbFile ⟨fun _ => true⟩ "/out" "json" ".json" "blocks"
      ⟨"000005.ldb", "/d/p", 1⟩ =
      .ok ([⟨"000005.ldb", ".json", "openrelik:dfleveldb:" ++ "blocks" ++ ":" ++ "json",
             "/d/p", 1⟩,
            ⟨"000005.ldb", ".json" ++ ".error.txt", STDERR_FILE_DATA_TYPE, "/d/p", 1⟩],
           [["dfleveldb", "ldb", "-s", "/d/p", "-t", "blocks", "-o", "json"]]) :=
  ⟨(claim_c5_record_type_gate ⟨fun _ => true⟩ "/out" "json" ".json" "versionedit"
      ⟨"000005.ldb", "/d/p", 1⟩ "ldb" (by decide)).1 (by decide),
   (claim_c5_record_type_gate ⟨fun _ => true⟩ "/out" "json" ".json" "blocks"
      ⟨"000005.ldb", "/d/p", 1⟩ "ldb" (by decide)).2 (by decide) rfl⟩

/-- C8: with no task configuration supplied, both tasks return a successful
result with an empty artifact list — no `No supported files` error, no
launched process, and no staging directory, for every batch of input files. -/
theorem claim_c8_no_config_noop (env : Env) (input_files : List InputFile)
    (output_path : String) (workflow_id : Option String) (token : String) :
    indexeddbCommand env input_files output_path workflow_id none token =
      (.ok { output_files := [], workflow_id := workflow_id, command := "dfindexeddb" },
       false, []) ∧
    leveldbCommand env input_files output_path workflow_id none =
      (.ok { output_files := [], workflow_id := workflow_id, command := "dfleveldb" },
       []) :=
  ⟨rfl, rfl⟩

/-- C9: for a child process of duration `D` with the fixed poll interval, the
supervisor emits between `D / INTERVAL_SECONDS` and `D / INTERVAL_SECONDS + 1`
payload-free progress events, at least one whenever `D > INTERVAL_SECONDS`,
and every event is emitted strictly before the process exits. -/
theorem claim_c9_heartbeat_cadence (D : Nat) :
    (D / INTERVAL_SECONDS ≤ (supervise D).length ∧
      (supervise D).length ≤ D / INTERVAL_SECONDS + 1) ∧
    (INTERVAL_SECONDS < D → 0 < (supervise D).length) ∧
    (∀ e ∈ supervise D, e.time < D ∧ e.data = none ∧ e.name = "task-progress") := by
  refine ⟨?_, ?_, ?_⟩
  · rw [supervise_length]
    simp only [INTERVAL_SECONDS]
    omega
  · intro h
    rw [supervise_length]
    simp only [INTERVAL_SECONDS] at h
    omega
  · intro e he
    exact pollLoop_mem_aux D D 0 e (by omega) he

/-- Witness for C9: a child running for 7 time units gets at least one
heartbeat. -/
theorem claim_c9_heartbeat_cadence_witness :
    INTERVAL_SECONDS < 7 ∧ 0 < (supervise 7).length :=
  ⟨by decide, (claim_c9_heartbeat_cadence 7).2.1 (by decide)⟩

/-- C10: for any present task configuration whose output format is absent or
not one of json/jsonl/repr, both tasks abort before any input file is
classified or processed: the IndexedDB task with the attribute error from
`.lower()` on the list default when the key is absent, otherwise with the
format-table key error; the LevelDB task with the key error. No process is
launched and the outcome is the same for every batch of input files. -/
theorem claim_c10_invalid_format_aborts (env : Env) (input_files : List InputFile)
    (output_path : String) (workflow_id : Option String) (cfg : TaskConfig)
    (token : String) :
    (cfg.output_format = none →
      indexeddbCommand env input_files output_path workflow_id (some cfg) token =
        (.error .attributeError, false, [])) ∧
    (∀ fmt, cfg.output_format = some fmt → lookupOutput (pyLower fmt) = none →
      indexeddbCommand env input_files output_path workflow_id (some cfg) token =
        (.error (.keyError (pyLower fmt)), false, [])) ∧
    (lookupOutput (pyLower (cfg.output_format.getD "")) = none →
      leveldbCommand env input_files output_path workflow_id (some cfg) =
        (.error (.keyError (pyLower (cfg.output_format.getD ""))), [])) := by
  refine ⟨?_, ?_, ?_⟩
  · intro h
    simp [indexeddbCommand, h]
  · intro fmt h1 h2
    simp [indexeddbCommand, h1, h2]
  · intro h
    simp [leveldbCommand, h]

/-- Witness for C10: a missing `output_format` key and a present but unknown
format `xml`, on a non-empty batch. -/
theorem claim_c10_invalid_format_aborts_witness :
    indexeddbCommand ⟨fun _ => true⟩ [⟨"fake_firefox.sqlite", "/d/f", 1⟩] "/out"
        none (some { browser_type := some "firefox" }) "tok" =
      (.error .attributeError, false, []) ∧
    indexeddbCommand ⟨fun _ => true⟩ [⟨"fake_firefox.sqlite", "/d/f", 1⟩] "/out"
        none (some { browser_type := some "firefox", output_format := some "xml" }) "tok" =
      (.error (.keyError (pyLower "xml")), false, []) ∧
    leveldbCommand ⟨fun _ => true⟩ [⟨"000005.ldb", "/d/p", 1⟩] "/out"
        none (some { record_type := some "blocks", output_format := some "xml" }) =
      (.error (.keyError (pyLower ((some "xml" : Option String).getD ""))), []) :=
  ⟨(claim_c10_invalid_format_aborts ⟨fun _ => true⟩ [⟨"fake_firefox.sqlite", "/d/f", 1⟩]
      "/out" none { browser_type := some "firefox" } "tok").1 rfl,
   (claim_c10_invalid_format_aborts ⟨fun _ => true⟩ [⟨"fake_firefox.sqlite", "/d/f", 1⟩]
      "/out" none { browser_type := some "firefox", output_format := some "xml" }
      "tok").2.1 "xml" rfl (by decide),
   (claim_c10_invalid_format_aborts ⟨fun _ => true⟩ [⟨"000005.ldb", "/d/p", 1⟩]
      "/out" none { record_type := some "blocks", output_format := some "xml" }
      "tok").2.2 (by decide)⟩

/-- C1: for an invocation with a present, well-formed configuration whose
per-file loop completed without an escaping exception, the task fails with the
`No supported files` error exactly when zero artifacts were produced across
all input files (including the zero-input-file batch), and whenever at least
one artifact was produced the task returns them successfully — per-file
classification misses alone never cause a task-level failure. -/
theorem claim_c1_zero_artifacts :
    (∀ (env : Env) (files : List InputFile) (op : String) (wid : Option String)
        (cfg : TaskConfig) (token fmt : String) (oc : OutputTypeConfig)
        (arts : List OutputFile) (cmds : List (List String)),
      cfg.output_format = some fmt →
      lookupOutput (pyLower fmt) = some oc →
      indexeddbLoop env op (op ++ "/" ++ token) (pyLower fmt) oc.extension
          (cfg.browser_type.getD "") files = (arts, cmds, none) →
      (((indexeddbCommand env files op wid (some cfg) token).1 =
          .error .noSupportedFiles) ↔ arts = []) ∧
      (arts ≠ [] → (indexeddbCommand env files op wid (some cfg) token).1 =
          .ok { output_files := arts, workflow_id := wid, command := "dfindexeddb" })) ∧
    (∀ (env : Env) (files : List InputFile) (op : String) (wid : Option String)
        (cfg : TaskConfig) (oc : OutputTypeConfig)
        (arts : List OutputFile) (cmds : List (List String)),
      lookupOutput (pyLower (cfg.output_format.getD "")) = some oc →
      leveldbLoop env op (pyLower (cfg.output_format.getD "")) oc.extension
          (cfg.record_type.getD "") files = (arts, cmds, none) →
      (((leveldbCommand env files op wid (some cfg)).1 =
          .error .noSupportedFiles) ↔ arts = []) ∧
      (arts ≠ [] → (leveldbCommand env files op wid (some cfg)).1 =
          .ok { output_files := arts, workflow_id := wid, command := "dfleveldb" })) := by
  constructor
  · intro env files op wid cfg token fmt oc arts cmds h1 h2 hloop
    simp only [indexeddbCommand, h1, h2, hloop]
    constructor
    · by_cases ha : arts = []
      · simp [ha]
      · simp [ha, List.isEmpty_iff]
    · intro ha
      simp [List.isEmpty_iff, ha]
  · intro env files op wid cfg oc arts cmds h2 hloop
    simp only [leveldbCommand, h2, hloop]
    constructor
    · by_cases ha : arts = []
      · simp [ha]
      · simp [ha, List.isEmpty_iff]
    · intro ha
      simp [List.isEmpty_iff, ha]

/-- Witness for C1: both tasks on the empty batch with a valid configuration
fail with `No supported files`. -/
theorem claim_c1_zero_artifacts_witness :
    (indexeddbCommand ⟨fun _ => true⟩ [] "/out" none
        (some { browser_type := some "firefox", output_format := some "JSONL" })
        "tok").1 = .error .noSupportedFiles ∧
    (leveldbCommand ⟨fun _ => true⟩ [] "/out" none
        (some { record_type := some "blocks", output_format := some "JSON" })).1 =
      .error .noSupportedFiles :=
  ⟨(claim_c1_zero_artifacts.1 ⟨fun _ => true⟩ [] "/out" none
      { browser_type := some "firefox", output_format := some "JSONL" } "tok"
      "JSONL" ⟨".jsonl", "application/jsonl"⟩ [] [] rfl (by decide) rfl).1.mpr rfl,
   (claim_c1_zero_artifacts.2 ⟨fun _ => true⟩ [] "/out" none
      { record_type := some "blocks", output_format := some "JSON" }
      ⟨".json", "application/json"⟩ [] [] (by decide) rfl).1.mpr rfl⟩

/-- C2: for an input file whose display name matches the Firefox pattern,
family firefox, output format JSONL, the IndexedDB task launches exactly the
argument vector `dfindexeddb db -s <staged-copy-path> -o jsonl --format
firefox` (literal vector equality, staged path under the task's temporary
directory) and produces exactly two artifacts for the file: one stdout
artifact and one stderr artifact. -/
theorem claim_c2_firefox_vector (env : Env) (f : InputFile)
    (op : String) (wid : Option String) (token : String)
    (hff : firefoxMatch f.display_name = true)
    (hl : env.launchOk ["dfindexeddb", "db", "-s",
        op ++ "/" ++ token ++ "/" ++ f.display_name, "-o", "jsonl",
        "--format", "firefox"] = true) :
    indexeddbCommand env [f] op wid
        (some { browser_type := some "firefox", output_format := some "JSONL" })
        token =
      (.ok { output_files :=
               [⟨f.display_name ++ "." ++ "firefox", ".jsonl",
                 "openrelik:dfindexeddb:" ++ "firefox" ++ ":" ++ "jsonl",
                 f.path, f.id⟩,
                ⟨f.display_name, ".jsonl" ++ ".error.txt", STDERR_FILE_DATA_TYPE,
                 f.path, f.id⟩],
             workflow_id := wid, command := "dfindexeddb" },
       false,
       [["dfindexeddb", "db", "-s", op ++ "/" ++ token ++ "/" ++ f.display_name,
         "-o", "jsonl", "--format", "firefox"]]) := by
  have hlow : pyLower "JSONL" = "jsonl" := rfl
  have hlk : lookupOutput "jsonl" = some ⟨".jsonl", "application/jsonl"⟩ := rfl
  have hclass : classifyIndexeddb "firefox" f.display_name = some "db" := by
    simp [classifyIndexeddb, hff]
  simp [indexeddbCommand, hlow, hlk, indexeddbLoop, processIndexeddbFile, hclass, hl]

/-- Witness for C2: the spec's concrete example `fake_firefox.sqlite`. -/
theorem claim_c2_firefox_vector_witness :
    indexeddbCommand ⟨fun _ => true⟩ [⟨"fake_firefox.sqlite", "/d/f", 1⟩] "/out"
        (some "wf")
        (some { browser_type := some "firefox", output_format := some "JSONL" })
        "tok" =
      (.ok { output_files :=
               [⟨"fake_firefox.sqlite" ++ "." ++ "firefox", ".jsonl",
                 "openrelik:dfindexeddb:" ++ "firefox" ++ ":" ++ "jsonl", "/d/f", 1⟩,
                ⟨"fake_firefox.sqlite", ".jsonl" ++ ".error.txt",
                 STDERR_FILE_DATA_TYPE, "/d/f", 1⟩],
             workflow_id := some "wf", command := "dfindexeddb" },
       false,
       [["dfindexeddb", "db", "-s", "/out" ++ "/" ++ "tok" ++ "/" ++ "fake_firefox.sqlite",
         "-o", "jsonl", "--format", "firefox"]]) :=
  claim_c2_firefox_vector ⟨fun _ => true⟩ ⟨"fake_firefox.sqlite", "/d/f", 1⟩
    "/out" (some "wf") "tok" (by decide) rfl

/-- C3: for an input file whose display name matches the `.ldb` pattern,
record type `blocks`, output format JSON, the LevelDB task launches exactly
the argument vector `dfleveldb ldb -s <original-path> -t blocks -o json`,
where the source path is the input file's original path unmodified — no
staging. -/
theorem claim_c3_ldb_vector (env : Env) (f : InputFile)
    (op : String) (wid : Option String)
    (hldb : matchesNumericExt ".ldb" f.display_name = true)
    (hl : env.launchOk ["dfleveldb", "ldb", "-s", f.path, "-t", "blocks",
        "-o", "json"] = true) :
    leveldbCommand env [f] op wid
        (some { record_type := some "blocks", output_format := some "JSON" }) =
      (.ok { output_files :=
               [⟨f.display_name, ".json",
                 "openrelik:dfleveldb:" ++ "blocks" ++ ":" ++ "json", f.path, f.id⟩,
                ⟨f.display_name, ".json" ++ ".error.txt", STDERR_FILE_DATA_TYPE,
                 f.path, f.id⟩],
             workflow_id := wid, command := "dfleveldb" },
       [["dfleveldb", "ldb", "-s", f.path, "-t", "blocks", "-o", "json"]]) := by
  have hlow : pyLower "JSON" = "json" := rfl
  have hlk : lookupOutput "json" = some ⟨".json", "application/json"⟩ := rfl
  have hclass : classifyLeveldb f.display_name = some "ldb" :=
    classifyLeveldb_ldb f.display_name hldb
  have hmem : "blocks" ∈ leveldbRecordTypes "ldb" := by decide
  simp [leveldbCommand, hlow, hlk, leveldbLoop, processLeveldbFile, hclass, hl, hmem]

/-- Witness for C3: the spec's concrete example `000005.ldb`. -/
theorem claim_c3_ldb_vector_witness :
    leveldbCommand ⟨fun _ => true⟩ [⟨"000005.ldb", "/d/000005.ldb", 1⟩] "/out"
        (some "wf")
        (some { record_type := some "blocks", output_format := some "JSON" }) =
      (.ok { output_files :=
               [⟨"000005.ldb", ".json",
                 "openrelik:dfleveldb:" ++ "blocks" ++ ":" ++ "json",
                 "/d/000005.ldb", 1⟩,
                ⟨"000005.ldb", ".json" ++ ".error.txt", STDERR_FILE_DATA_TYPE,
                 "/d/000005.ldb", 1⟩],
             workflow_id := some "wf", command := "dfleveldb" },
       [["dfleveldb", "ldb", "-s", "/d/000005.ldb", "-t", "blocks", "-o", "json"]]) :=
  claim_c3_ldb_vector ⟨fun _ => true⟩ ⟨"000005.ldb", "/d/000005.ldb", 1⟩
    "/out" (some "wf") (by decide) rfl

/-- Counterexample to C6 as stated: a task invocation with a present
configuration (so the staging directory is created) in which the launch of
the only file's subprocess fails. The exception escapes the per-file loop
before the removal step runs, and the staging directory remains on exit
(second component `true`). -/
theorem claim_c6_counterexample :
    indexeddbCommand ⟨fun _ => false⟩ [⟨"fake_firefox.sqlite", "/d/f", 1⟩] "/out"
        none
        (some { browser_type := some "firefox", output_format := some "JSONL" })
        "tok" =
      (.error (.launchError ["dfindexeddb", "db", "-s",
          "/out/tok/fake_firefox.sqlite", "-o", "jsonl", "--format", "firefox"]),
       true, []) := rfl

/-- C6 (amended): for a present, well-formed configuration, the staging
directory is removed before the task completes on the normal paths — success
and the `No supported files` failure — but it is NOT removed exactly when a
per-file exception (a subprocess launch failure) escapes the loop: the
directory remains iff the task aborts with a launch error. -/
theorem claim_c6_staging_cleanup (env : Env) (files : List InputFile)
    (op : String) (wid : Option String) (cfg : TaskConfig) (token fmt : String)
    (oc : OutputTypeConfig)
    (h1 : cfg.output_format = some fmt)
    (h2 : lookupOutput (pyLower fmt) = some oc) :
    (indexeddbCommand env files op wid (some cfg) token).2.1 = true ↔
      ∃ argv, (indexeddbCommand env files op wid (some cfg) token).1 =
        .error (.launchError argv) := by
  rcases hloop : indexeddbLoop env op (op ++ "/" ++ token) (pyLower fmt)
      oc.extension (cfg.browser_type.getD "") files with ⟨arts, cmds, err⟩
  cases err with
  | none =>
    simp only [indexeddbCommand, h1, h2, hloop]
    by_cases ha : arts.isEmpty <;> simp [ha]
  | some e =>
    obtain ⟨argv, he⟩ := indexeddbLoop_error_shape env op (op ++ "/" ++ token)
      (pyLower fmt) oc.extension (cfg.browser_type.getD "") files e
      (by rw [hloop])
    simp only [indexeddbCommand, h1, h2, hloop]
    subst he
    simp

/-- Witness for C6 (amended): in the counterexample scenario, the amended
equivalence yields the leaked directory from the launch error. -/
theorem claim_c6_staging_cleanup_witness :
    (indexeddbCommand ⟨fun _ => false⟩ [⟨"fake_firefox.sqlite", "/d/f", 1⟩]
        "/out" none
        (some { browser_type := some "firefox", output_format := some "JSONL" })
        "tok").2.1 = true :=
  (claim_c6_staging_cleanup ⟨fun _ => false⟩ [⟨"fake_firefox.sqlite", "/d/f", 1⟩]
      "/out" none { browser_type := some "firefox", output_format := some "JSONL" }
      "tok" "JSONL" ⟨".jsonl", "application/jsonl"⟩ rfl (by decide)).mpr
    ⟨["dfindexeddb", "db", "-s", "/out/tok/fake_firefox.sqlite", "-o", "jsonl",
      "--format", "firefox"], rfl⟩

/-- Counterexample to C7 as stated: a batch of two supported Firefox files in
which only the first file's argument vector fails to launch (the environment
launches every other vector). The task aborts with that launch error, no
vector is ever launched (third component `[]`), and the second file is never
attempted — the failure is not confined to the one file. -/
theorem claim_c7_counterexample :
    indexeddbCommand
        ⟨fun argv => argv != ["dfindexeddb", "db", "-s", "/out/tok/a.sqlite",
          "-o", "jsonl", "--format", "firefox"]⟩
        [⟨"a.sqlite", "/d/a", 1⟩, ⟨"b.sqlite", "/d/b", 2⟩] "/out" none
        (some { browser_type := some "firefox", output_format := some "JSONL" })
        "tok" =
      (.error (.launchError ["dfindexeddb", "db", "-s", "/out/tok/a.sqlite",
          "-o", "jsonl", "--format", "firefox"]),
       true, []) := rfl

/-- C7 (amended): when launching the subprocess for one input file fails, no
artifacts are recorded for that file, but the failure is not confined to it:
the exception propagates out of the per-file loop, the remaining input files
are not processed, and the whole task aborts with that launch error. -/
theorem claim_c7_launch_failure_aborts :
    (∀ (env : Env) (op td fmt ext bt : String) (f : InputFile)
        (rest : List InputFile) (e : TaskError),
      processIndexeddbFile env op td fmt ext bt f = .error e →
      indexeddbLoop env op td fmt ext bt (f :: rest) = ([], [], some e)) ∧
    (∀ (env : Env) (op fmt ext rt : String) (f : InputFile)
        (rest : List InputFile) (e : TaskError),
      processLeveldbFile env op fmt ext rt f = .error e →
      leveldbLoop env op fmt ext rt (f :: rest) = ([], [], some e)) ∧
    (∀ (env : Env) (files : List InputFile) (op : String) (wid : Option String)
        (cfg : TaskConfig) (token fmt : String) (oc : OutputTypeConfig)
        (arts : List OutputFile) (cmds : List (List String)) (e : TaskError),
      cfg.output_format = some fmt →
      lookupOutput (pyLower fmt) = some oc →
      indexeddbLoop env op (op ++ "/" ++ token) (pyLower fmt) oc.extension
          (cfg.browser_type.getD "") files = (arts, cmds, some e) →
      (indexeddbCommand env files op wid (some cfg) token).1 = .error e) ∧
    (∀ (env : Env) (files : List InputFile) (op : String) (wid : Option String)
        (cfg : TaskConfig) (oc : OutputTypeConfig)
        (arts : List OutputFile) (cmds : List (List String)) (e : TaskError),
      lookupOutput (pyLower (cfg.output_format.getD "")) = some oc →
      leveldbLoop env op (pyLower (cfg.output_format.getD "")) oc.extension
          (cfg.record_type.getD "") files = (arts, cmds, some e) →
      (leveldbCommand env files op wid (some cfg)).1 = .error e) := by
  refine ⟨?_, ?_, ?_, ?_⟩
  · intro env op td fmt ext bt f rest e h
    simp [indexeddbLoop, h]
  · intro env op fmt ext rt f rest e h
    simp [leveldbLoop, h]
  · intro env files op wid cfg token fmt oc arts cmds e h1 h2 hloop
    simp [indexeddbCommand, h1, h2, hloop]
  · intro env files op wid cfg oc arts cmds e h2 hloop
    simp [leveldbCommand, h2, hloop]

/-- Witness for C7 (amended): with every launch failing, a two-file batch
stops at the first file in both loops; the second file contributes nothing. -/
theorem claim_c7_launch_failure_aborts_witness :
    indexeddbLoop ⟨fun _ => false⟩ "/out" "/out/tok" "jsonl" ".jsonl" "firefox"
        [⟨"a.sqlite", "/d/a", 1⟩, ⟨"b.sqlite", "/d/b", 2⟩] =
      ([], [], some (.launchError ["dfindexeddb", "db", "-s", "/out/tok/a.sqlite",
        "-o", "jsonl", "--format", "firefox"])) ∧
    leveldbLoop ⟨fun _ => false⟩ "/out" "json" ".json" "blocks"
        [⟨"000005.ldb", "/d/p", 1⟩, ⟨"000006.ldb", "/d/q", 2⟩] =
      ([], [], some (.launchError ["dfleveldb", "ldb", "-s", "/d/p", "-t",
        "blocks", "-o", "json"])) :=
  ⟨claim_c7_launch_failure_aborts.1 ⟨fun _ => false⟩ "/out" "/out/tok" "jsonl"
      ".jsonl" "firefox" ⟨"a.sqlite", "/d/a", 1⟩ [⟨"b.sqlite", "/d/b", 2⟩] _ rfl,
   claim_c7_launch_failure_aborts.2.1 ⟨fun _ => false⟩ "/out" "json" ".json"
      "blocks" ⟨"000005.ldb", "/d/p", 1⟩ [⟨"000006.ldb", "/d/q", 2⟩] _ rfl⟩
